import Mathlib

/-!
Verification of the playback queue and worker of a text-to-speech MCP
server (`src/server.py`).  The Python module keeps a global deque of
pending playback items, a "now playing" slot, a stop event and a
monotone id counter; a background worker drains the queue, and three
tool handlers (`speak`, `speech_status`, `speech_stop`) mutate or read
this state.  We embed that state shallowly: floats become rationals,
byte strings become lists of naturals, the external HTTP backend and
the audio device become explicit parameters describing their outcome,
and the interleaving of handler calls and worker steps becomes a list
of events folded over the state.
-/

namespace PiperTts

/-- One queued or playing unit of audio, mirroring the dict
`{"id", "source", "text", "audio", "volume", "duration"}` built in `speak`. -/
structure PlaybackItem where
  id : Nat
  source : String
  text : String
  audio : List Nat
  volume : ℚ
  duration : ℚ
  deriving Repr, DecidableEq

/-- The module-level mutable state of `server.py`: the pending deque
`_queue` (head first), the `_now_playing` slot, the `_stop_event` flag and
the `_next_id` counter. -/
structure ServerState where
  queue : List PlaybackItem
  nowPlaying : Option PlaybackItem
  stopEvent : Bool
  nextId : Nat
  deriving Repr, DecidableEq

/-- The state at process start: empty deque, nothing playing, event not
set, `_next_id = 0`. -/
def initState : ServerState :=
  { queue := [], nowPlaying := none, stopEvent := false, nextId := 0 }

/-- Outcome of `_next_playback_id()`: increments `_next_id` under its lock
and returns the incremented value. -/
def nextPlaybackId (s : ServerState) : Nat × ServerState :=
  (s.nextId + 1, { s with nextId := s.nextId + 1 })

/-- Result of parsing a byte buffer with the standard library `wave`
module: on success the header yields a frame count and a frame rate;
anything unsupported or corrupt raises, which we represent as `err`. -/
inductive WavParse where
  | ok (nframes : Nat) (framerate : Nat)
  | err
  deriving Repr, DecidableEq

/-- Shallow embedding of `_estimate_duration`: the `wave.open` parse is
abstracted by the `wavParse` oracle; on success the code returns
`getnframes() / float(getframerate())`, and the surrounding
`except Exception: return 0.0` catches both parse errors and the
`ZeroDivisionError` raised when the frame rate is `0`. -/
def estimateDuration (wavParse : List Nat → WavParse) (audioBytes : List Nat) : ℚ :=
  match wavParse audioBytes with
  | .ok nframes framerate =>
      if framerate = 0 then 0 else (nframes : ℚ) / (framerate : ℚ)
  | .err => 0

/-- Python's `round(x, 1)` modelled on rationals: round to the nearest
tenth (the float tie-breaking of CPython is irrelevant to the claims). -/
def round1 (x : ℚ) : ℚ := (round (x * 10) : ℤ) / 10

/-- The JSON body posted to the synthesis backend at `localhost:5001`. -/
structure SynthRequest where
  text : String
  speaker_id : Int
  length_scale : ℚ
  noise_scale : ℚ
  noise_w_scale : ℚ
  deriving Repr, DecidableEq

/-- What `requests.post` can produce: a response with a status code and
body bytes, a `Timeout`, or a `ConnectionError`. -/
inductive PostResult where
  | response (status : Nat) (content : List Nat)
  | timeout
  | connError
  deriving Repr, DecidableEq

/-- Arguments of the `speak` tool.  `source` is `Optional[str]` defaulting
to `None`; `volume` is `Optional[float]` defaulting to `0.15`, and we use
`none` for both an omitted argument and an explicit `None` (the code
collapses them through `volume or 0.15`, and an omitted argument becomes
the default `0.15`, which `or` passes through unchanged). -/
structure SpeakArgs where
  text : String
  source : Option String := none
  speaker_id : Int := 0
  length_scale : ℚ := 1.1
  noise_scale : ℚ := 0.667
  noise_w_scale : ℚ := 0.333
  volume : Option ℚ := none

/-- Python's `volume or 0.15` on an optional float: `None` and `0.0` are
falsy, every other value passes through. -/
def volumeOrDefault (v : Option ℚ) : ℚ :=
  match v with
  | none => 0.15
  | some x => if x = 0 then 0.15 else x

/-- The volume actually stored by `speak`:
`max(0.01, min(1.00, volume or 0.15))`. -/
def clampVolume (v : Option ℚ) : ℚ :=
  max 0.01 (min 1.00 (volumeOrDefault v))

/-- The spoken text: `if source: spoken_text = f"From {source}: {text}"`.
A `None` or empty `source` is falsy, so the text is sent unchanged. -/
def spokenText (text : String) (source : Option String) : String :=
  match source with
  | some src => if src = "" then text else "From " ++ src ++ ": " ++ text
  | none => text

/-- The request body `data` built by `speak` and posted to the backend. -/
def speakRequest (a : SpeakArgs) : SynthRequest :=
  { text := spokenText a.text a.source
    speaker_id := a.speaker_id
    length_scale := a.length_scale
    noise_scale := a.noise_scale
    noise_w_scale := a.noise_w_scale }

/-- The JSON object returned by a successful `speak` call. -/
structure SpeakResponse where
  playback_id : Nat
  queue_position : Nat
  estimated_wait_seconds : ℚ
  audio_duration_seconds : ℚ
  text : String
  deriving Repr, DecidableEq

/-- A `speak` call returns either the success JSON or an error string. -/
inductive SpeakOutcome where
  | ok (resp : SpeakResponse)
  | error (msg : String)
  deriving Repr, DecidableEq

/-- Shallow embedding of the `speak` tool.  `backend` stands for
`requests.post` (invoked at the request `speakRequest a`), `wavParse`
for the `wave` parser used by `_estimate_duration`.  Mirrors the source
order: clamp volume, build the spoken text and request, post; on a
non-200 status or a raised `Timeout`/`ConnectionError` return the error
string without touching the state; on success draw a fresh id, estimate
the duration, append the item to the queue tail and compute the wait
estimate under the queue lock. -/
def speak (wavParse : List Nat → WavParse) (backend : SynthRequest → PostResult)
    (s : ServerState) (a : SpeakArgs) : ServerState × SpeakOutcome :=
  match backend (speakRequest a) with
  | .timeout => (s, .error "Error: TTS service request timed out")
  | .connError => (s, .error "Error: TTS service not available at localhost:5001")
  | .response status content =>
    if status ≠ 200 then
      (s, .error ("TTS service error: HTTP " ++ toString status))
    else
      let (playback_id, s1) := nextPlaybackId s
      let duration := estimateDuration wavParse content
      let item : PlaybackItem :=
        { id := playback_id
          source := a.source.getD ""
          text := a.text
          audio := content
          volume := clampVolume a.volume
          duration := duration }
      let queue2 := s1.queue ++ [item]
      let queue_pos := queue2.length
      let waitAhead := (queue2.map PlaybackItem.duration).sum - duration
      let wait :=
        match s1.nowPlaying with
        | some np => waitAhead + np.duration * (1 / 2)
        | none => waitAhead
      ({ s1 with queue := queue2 },
        .ok { playback_id := playback_id
              queue_position := queue_pos
              estimated_wait_seconds := round1 wait
              audio_duration_seconds := round1 duration
              text := a.text })

/-- The per-item summary used by `speech_status`: id, source, the text
truncated to its first 60 characters, and the rounded duration. -/
structure ItemSummary where
  id : Nat
  source : String
  text : String
  duration : ℚ
  deriving Repr, DecidableEq

/-- `{"id": q["id"], "source": q["source"], "text": q["text"][:60],
"duration": round(q["duration"], 1)}`. -/
def summarize (q : PlaybackItem) : ItemSummary :=
  { id := q.id, source := q.source, text := q.text.take 60
    duration := round1 q.duration }

/-- The JSON object returned by `speech_status`. -/
structure StatusResponse where
  now_playing : Option ItemSummary
  queue_depth : Nat
  queued : List ItemSummary
  deriving Repr, DecidableEq

/-- Shallow embedding of the `speech_status` tool: a read-only snapshot
of the pending deque and the now-playing slot. -/
def speech_status (s : ServerState) : StatusResponse :=
  { now_playing := s.nowPlaying.map summarize
    queue_depth := s.queue.length
    queued := s.queue.map summarize }

/-- The JSON object returned by `speech_stop`: the item that was playing
(id and text truncated to 60 characters), and how many pending items were
cleared. -/
structure StopResponse where
  stopped : Option (Nat × String)
  cleared_count : Nat
  deriving Repr, DecidableEq

/-- Shallow embedding of the `speech_stop` tool: record the now-playing
item for the response, set `_stop_event`, and when `clear_queue` is true
clear the deque under the lock, reporting its former length. -/
def speech_stop (s : ServerState) (clear_queue : Bool) : ServerState × StopResponse :=
  let stopped := s.nowPlaying.map fun np => (np.id, np.text.take 60)
  let s1 := { s with stopEvent := true }
  if clear_queue then
    ({ s1 with queue := [] }, { stopped := stopped, cleared_count := s1.queue.length })
  else
    (s1, { stopped := stopped, cleared_count := 0 })

/-- One interaction of the worker's body with the audio device and the
file system, i.e. which of the pygame and file calls raise, whether the
stop event gets set while the music is busy, and whether the `os.remove`
in the `finally` block raises.  Each field is an independent possibility;
the model quantifies over all of them. -/
structure DeviceEnv where
  setVolumeOk : Bool
  memLoadOk : Bool
  fileWriteOk : Bool
  fileLoadOk : Bool
  playOk : Bool
  stopDuringPlay : Bool
  removeOk : Bool
  deriving Repr, DecidableEq

/-- How one item's processing ended inside the worker's `try` block:
playback ran to completion, the busy-wait saw `_stop_event` and stopped
the music, or some device call raised (and was caught by
`except Exception: pass`). -/
inductive BodyOutcome where
  | finished
  | stoppedEarly
  | errored
  deriving Repr, DecidableEq

/-- The worker's `try` block for one item, from `set_volume` to the
post-play drain, as a function of the device behaviour.  Returns the
outcome together with whether a temporary fallback file was created
(`temp_file` is only assigned when the in-memory load raises).  Raised
exceptions do not escape: they map to `errored` because the enclosing
`except Exception: pass` swallows them. -/
def workerTryBody (env : DeviceEnv) : BodyOutcome × Bool :=
  if !env.setVolumeOk then (.errored, false)
  else if env.memLoadOk then
    if !env.playOk then (.errored, false)
    else if env.stopDuringPlay then (.stoppedEarly, false)
    else (.finished, false)
  else
    if !env.fileWriteOk then (.errored, true)
    else if !env.fileLoadOk then (.errored, true)
    else if !env.playOk then (.errored, true)
    else if env.stopDuringPlay then (.stoppedEarly, true)
    else (.finished, true)

/-- What one worker iteration did: which item it took, how its playback
ended, whether the fallback temp file was created, and whether that file
still exists once the iteration's `finally` block has run. -/
structure IterationReport where
  item : PlaybackItem
  outcome : BodyOutcome
  tempCreated : Bool
  tempFileLeft : Bool
  deriving Repr, DecidableEq

/-- One iteration of `_playback_worker`'s infinite loop.  If the deque is
empty the worker merely sleeps (no state change, no report).  Otherwise it
pops the head, publishes it to `_now_playing`, clears `_stop_event`, runs
the `try` body against the device, and the `finally` block then resets
`_now_playing = None` and, if a temp file was created, attempts
`os.remove` on it: the file is gone when the remove call succeeds, but a
raising `os.remove` is swallowed by its own `except Exception: pass` and
the file then survives the iteration.  The function is total: no device
or file-system behaviour makes the loop terminate. -/
def workerIteration (env : DeviceEnv) (s : ServerState) :
    ServerState × Option IterationReport :=
  match s.queue with
  | [] => (s, none)
  | item :: rest =>
    let s1 : ServerState :=
      { s with queue := rest, nowPlaying := some item, stopEvent := false }
    let body := workerTryBody env
    let s2 := { s1 with nowPlaying := none }
    (s2, some { item := item, outcome := body.1, tempCreated := body.2
                tempFileLeft := body.2 && !env.removeOk })

/-- An atomic step of the whole process: a `speak` call (with its backend
and wave-parser behaviour), one worker iteration (with its device
behaviour), or a `speech_stop` call.  `speech_status` is read-only and
does not change the state. -/
inductive Event where
  | speakEv (wavParse : List Nat → WavParse) (backend : SynthRequest → PostResult)
      (a : SpeakArgs)
  | workerEv (env : DeviceEnv)
  | stopEv (clear : Bool)

/-- State transition of one event. -/
def step (s : ServerState) : Event → ServerState
  | .speakEv w b a => (speak w b s a).1
  | .workerEv env => (workerIteration env s).1
  | .stopEv clear => (speech_stop s clear).1

/-- Folding a list of events over the state: one possible serialisation
of the concurrent handler calls and worker iterations. -/
def run (s : ServerState) (es : List Event) : ServerState :=
  es.foldl step s

/-- The playback id assigned by an event, when the event is a `speak`
call that succeeds. -/
def speakSuccessId (s : ServerState) : Event → Option Nat
  | .speakEv w b a =>
    match (speak w b s a).2 with
    | .ok r => some r.playback_id
    | .error _ => none
  | _ => none

/-- The playback ids assigned along a trace, in the order the successful
`speak` calls complete. -/
def assignedIds : ServerState → List Event → List Nat
  | _, [] => []
  | s, e :: es =>
    (match speakSuccessId s e with
     | some i => [i]
     | none => []) ++ assignedIds (step s e) es

/-- Invariant: every id in the pending deque is at most the counter
`_next_id`, and the ids in the deque strictly increase from head to tail. -/
def IdInv (s : ServerState) : Prop :=
  List.Chain' (· < ·) (s.queue.map PlaybackItem.id) ∧
    ∀ it ∈ s.queue, it.id ≤ s.nextId

/-- A wave parser that rejects every buffer, for concrete evaluations. -/
def wavErr : List Nat → WavParse := fun _ => .err

/-- A backend that always answers HTTP 200 with an empty body. -/
def backendOk : SynthRequest → PostResult := fun _ => .response 200 []

/-- A backend whose connection is refused. -/
def backendDown : SynthRequest → PostResult := fun _ => .connError

/-- A queued item with the given id and duration, for concrete states. -/
def exItem (i : Nat) (d : ℚ) : PlaybackItem :=
  { id := i, source := "", text := "x", audio := [], volume := 0.15, duration := d }

/-- A state with two pending items of durations 2 s and 3 s and nothing
playing, matching the worked example of the wait-estimate formula. -/
def exState3 : ServerState :=
  { queue := [exItem 1 2, exItem 2 3], nowPlaying := none, stopEvent := false, nextId := 2 }

/-- The response `speak` produces on `exState3` with `backendOk`:
position 3 behind the two pending items, estimated wait 2 + 3 = 5 s. -/
def exResp3 : SpeakResponse :=
  { playback_id := 3, queue_position := 3, estimated_wait_seconds := 5
    audio_duration_seconds := 0, text := "hi" }

/-- The response `speak` produces on the initial state with `backendOk`. -/
def exResp1 : SpeakResponse :=
  { playback_id := 1, queue_position := 1, estimated_wait_seconds := 0
    audio_duration_seconds := 0, text := "hi" }

/-- A device on which every call of the `try` body raises, the stop event
is never set, and the final `os.remove` succeeds. -/
def envAllFail : DeviceEnv :=
  { setVolumeOk := false, memLoadOk := false, fileWriteOk := false, fileLoadOk := false
    playOk := false, stopDuringPlay := false, removeOk := true }

/-- A device on which the in-memory load fails — forcing the temp-file
fallback — playback then succeeds, and the final `os.remove` raises. -/
def envRemoveFail : DeviceEnv :=
  { setVolumeOk := true, memLoadOk := false, fileWriteOk := true, fileLoadOk := true
    playOk := true, stopDuringPlay := false, removeOk := false }

/-- A state with one pending item, for evaluating a worker iteration. -/
def exStateC6 : ServerState :=
  { queue := [exItem 1 2], nowPlaying := none, stopEvent := false, nextId := 1 }

/-- A `speak` call either leaves the state untouched (every failure path)
or appends a single item carrying the freshly incremented id to the tail
of the deque. -/
lemma speak_state_cases (w : List Nat → WavParse) (b : SynthRequest → PostResult)
    (s : ServerState) (a : SpeakArgs) :
    (speak w b s a).1 = s ∨
      ∃ item : PlaybackItem, item.id = s.nextId + 1 ∧
        (speak w b s a).1 = { s with queue := s.queue ++ [item], nextId := s.nextId + 1 } := by
  unfold speak
  cases hb : b (speakRequest a) with
  | timeout => exact Or.inl rfl
  | connError => exact Or.inl rfl
  | response status content =>
    by_cases hs : status = 200
    · subst hs
      exact Or.inr ⟨_, rfl, rfl⟩
    · exact Or.inl (by simp [hs])

/-- A `speak` call that returns an error string leaves the whole server
state unchanged: the error returns happen before `_next_playback_id` and
before the enqueue. -/
lemma speak_error_state (w : List Nat → WavParse) (b : SynthRequest → PostResult)
    (s : ServerState) (a : SpeakArgs) (msg : String)
    (h : (speak w b s a).2 = .error msg) : (speak w b s a).1 = s := by
  unfold speak at h ⊢
  cases hb : b (speakRequest a) with
  | timeout => rfl
  | connError => rfl
  | response status content =>
    by_cases hs : status = 200
    · subst hs; simp [hb] at h
    · simp [hs]

/-- A successful `speak` call hands out exactly the incremented counter
as the playback id and bumps the counter by one. -/
lemma speak_ok_id (w : List Nat → WavParse) (b : SynthRequest → PostResult)
    (s : ServerState) (a : SpeakArgs) (r : SpeakResponse)
    (h : (speak w b s a).2 = .ok r) :
    r.playback_id = s.nextId + 1 ∧ (speak w b s a).1.nextId = s.nextId + 1 := by
  unfold speak at h ⊢
  cases hb : b (speakRequest a) with
  | timeout => simp [hb] at h
  | connError => simp [hb] at h
  | response status content =>
    rw [hb] at h
    by_cases hs : status = 200
    · subst hs
      simp at h
      constructor
      · rw [← h]; rfl
      · rfl
    · simp [hs] at h

/-- The worker only ever removes the head of the deque. -/
lemma workerIteration_queue (env : DeviceEnv) (s : ServerState) :
    (workerIteration env s).1.queue = s.queue.tail := by
  rcases hq : s.queue with _ | ⟨item, rest⟩ <;> simp [workerIteration, hq]

/-- The worker never touches the id counter. -/
lemma workerIteration_nextId (env : DeviceEnv) (s : ServerState) :
    (workerIteration env s).1.nextId = s.nextId := by
  rcases hq : s.queue with _ | ⟨item, rest⟩ <;> simp [workerIteration, hq]

/-- `speech_stop` never touches the id counter. -/
lemma speech_stop_nextId (s : ServerState) (c : Bool) :
    (speech_stop s c).1.nextId = s.nextId := by
  unfold speech_stop
  cases c <;> rfl

/-- The id invariant is preserved by every event. -/
lemma idInv_step (s : ServerState) (e : Event) (h : IdInv s) : IdInv (step s e) := by
  obtain ⟨hchain, hbound⟩ := h
  cases e with
  | speakEv w b a =>
    rcases speak_state_cases w b s a with hcase | ⟨item, hid, hcase⟩
    · show IdInv (speak w b s a).1
      rw [hcase]; exact ⟨hchain, hbound⟩
    · show IdInv (speak w b s a).1
      rw [hcase]
      constructor
      · rw [List.map_append, List.chain'_append]
        refine ⟨hchain, List.chain'_singleton _, ?_⟩
        intro x hx y hy
        simp at hy
        subst hy
        have hmem : x ∈ s.queue.map PlaybackItem.id := List.mem_of_mem_getLast? hx
        obtain ⟨it, hit, hix⟩ := List.mem_map.mp hmem
        have := hbound it hit
        simp [hid]
        omega
      · intro it hit
        rcases List.mem_append.mp hit with hold | hnew
        · have := hbound it hold
          simp
          omega
        · simp at hnew
          subst hnew
          simp [hid]
  | workerEv env =>
    show IdInv (workerIteration env s).1
    constructor
    · rw [workerIteration_queue]
      have htail : s.queue.tail.map PlaybackItem.id = (s.queue.map PlaybackItem.id).tail := by
        cases s.queue <;> rfl
      rw [htail]
      exact hchain.tail
    · intro it hit
      rw [workerIteration_queue] at hit
      rw [workerIteration_nextId]
      exact hbound it (List.mem_of_mem_tail hit)
  | stopEv clear =>
    show IdInv (speech_stop s clear).1
    unfold speech_stop
    cases clear
    · exact ⟨hchain, hbound⟩
    · exact ⟨by simp, by simp⟩

/-- `List.range'` with unit step is a strictly increasing chain. -/
lemma chain'_lt_range' (s n : Nat) : List.Chain' (· < ·) (List.range' s n) := by
  induction n generalizing s with
  | zero => simp
  | succ k ih =>
    rw [List.range'_succ]
    cases k with
    | zero => simp
    | succ m =>
      rw [List.range'_succ]
      exact List.Chain'.cons (by omega) (by rw [← List.range'_succ]; exact ih (s + 1))

/-- Along any trace, the ids handed out by successful `speak` calls are
the consecutive integers starting right above the current counter. -/
lemma assignedIds_range' (es : List Event) : ∀ s : ServerState,
    ∃ k, assignedIds s es = List.range' (s.nextId + 1) k := by
  induction es with
  | nil => intro s; exact ⟨0, rfl⟩
  | cons e es ih =>
    intro s
    cases e with
    | speakEv w b a =>
      cases ho : (speak w b s a).2 with
      | ok r =>
        obtain ⟨hid, hnext⟩ := speak_ok_id w b s a r ho
        obtain ⟨k, hk⟩ := ih (step s (.speakEv w b a))
        refine ⟨k + 1, ?_⟩
        simp only [assignedIds, speakSuccessId, ho]
        rw [hk, hid, List.singleton_append,
          show (step s (.speakEv w b a)).nextId = s.nextId + 1 from hnext,
          List.range'_succ]
      | error msg =>
        obtain ⟨k, hk⟩ := ih (step s (.speakEv w b a))
        refine ⟨k, ?_⟩
        simp only [assignedIds, speakSuccessId, ho]
        rw [hk]
        rw [show (step s (.speakEv w b a)) = s from speak_error_state w b s a msg ho,
          List.nil_append]
    | workerEv env =>
      obtain ⟨k, hk⟩ := ih (step s (.workerEv env))
      refine ⟨k, ?_⟩
      simp only [assignedIds, speakSuccessId]
      rw [hk, show (step s (.workerEv env)).nextId = s.nextId from workerIteration_nextId env s]
      simp
    | stopEv clear =>
      obtain ⟨k, hk⟩ := ih (step s (.stopEv clear))
      refine ⟨k, ?_⟩
      simp only [assignedIds, speakSuccessId]
      rw [hk, show (step s (.stopEv clear)).nextId = s.nextId from speech_stop_nextId s clear]
      simp

/-- `run` unfolds one event at a time. -/
lemma run_cons (s : ServerState) (e : Event) (es : List Event) :
    run s (e :: es) = run (step s e) es := rfl

/-- The id invariant holds along every trace. -/
lemma idInv_run (es : List Event) : ∀ s : ServerState, IdInv s → IdInv (run s es) := by
  induction es with
  | nil => intro s h; exact h
  | cons e es ih =>
    intro s h
    rw [run_cons]
    exact ih _ (idInv_step s e h)

/-- Truncating a string to its first 60 characters yields at most 60. -/
lemma take60_length (t : String) : (t.take 60).length ≤ 60 := by
  rw [String.take_eq]
  show (t.data.take 60).length ≤ 60
  simp

/-- C1: along every trace from process start, the pending deque holds
items in strictly increasing id order (so exactly submission order, since
each enqueue appends the freshly incremented id at the tail), the ids
assigned by successful `speak` calls strictly increase over the process
lifetime and are never reused, `speak` only ever appends a single item at
the tail, and the worker only ever removes the head. -/
theorem queue_fifo_and_ids_monotone :
    (∀ es : List Event, List.Chain' (· < ·) ((run initState es).queue.map PlaybackItem.id)) ∧
    (∀ es : List Event, List.Chain' (· < ·) (assignedIds initState es)) ∧
    (∀ (w : List Nat → WavParse) (b : SynthRequest → PostResult) (s : ServerState) (a : SpeakArgs),
      (speak w b s a).1.queue = s.queue ∨ ∃ item, (speak w b s a).1.queue = s.queue ++ [item]) ∧
    (∀ (env : DeviceEnv) (s : ServerState), (workerIteration env s).1.queue = s.queue.tail) := by
  refine ⟨?_, ?_, ?_, workerIteration_queue⟩
  · intro es
    exact (idInv_run es initState ⟨by simp [initState], by simp [initState]⟩).1
  · intro es
    obtain ⟨k, hk⟩ := assignedIds_range' es initState
    rw [hk]
    exact chain'_lt_range' _ _
  · intro w b s a
    rcases speak_state_cases w b s a with h | ⟨item, _, h⟩
    · exact Or.inl (by rw [h])
    · exact Or.inr ⟨item, by rw [h]⟩

/-- C2: `speech_stop` reports the id and the ≤ 60-character text of the
item in the now-playing slot at call time (`none` when nothing plays);
with `clear_queue = true` it reports the former pending count and empties
the deque, with `clear_queue = false` it reports 0 and leaves the deque
alone. -/
theorem speech_stop_spec :
    ∀ (s : ServerState) (clear : Bool),
      (speech_stop s clear).2.stopped = s.nowPlaying.map (fun np => (np.id, np.text.take 60)) ∧
      ((speech_stop s clear).2.stopped.elim True fun p => p.2.length ≤ 60) ∧
      (speech_stop s clear).2.cleared_count = (if clear then s.queue.length else 0) ∧
      (speech_stop s clear).1.queue = (if clear then [] else s.queue) := by
  intro s clear
  refine ⟨by cases clear <;> simp [speech_stop], ?_,
    by cases clear <;> simp [speech_stop], by cases clear <;> simp [speech_stop]⟩
  cases hnp : s.nowPlaying with
  | none => cases clear <;> simp [speech_stop, hnp]
  | some np =>
    cases clear <;> simp [speech_stop, hnp] <;> exact take60_length np.text

/-- C3: every successful `speak` call reports as estimated wait the
rounded sum of the durations of the items pending at enqueue time
(excluding the new item) plus half the duration of the now-playing item
when one exists. -/
theorem speak_estimated_wait (w : List Nat → WavParse) (b : SynthRequest → PostResult)
    (s : ServerState) (a : SpeakArgs) (r : SpeakResponse)
    (h : (speak w b s a).2 = .ok r) :
    r.estimated_wait_seconds =
      round1 ((s.queue.map PlaybackItem.duration).sum +
        s.nowPlaying.elim 0 fun np => np.duration * (1 / 2)) := by
  unfold speak at h
  cases hb : b (speakRequest a) with
  | timeout => rw [hb] at h; simp at h
  | connError => rw [hb] at h; simp at h
  | response status content =>
    rw [hb] at h
    by_cases hs : status = 200
    · subst hs
      simp at h
      rw [← h]
      show round1 _ = _
      congr 1
      cases hnp : s.nowPlaying <;>
        simp [nextPlaybackId, hnp, List.sum_append, Option.elim]
    · simp [hs] at h

/-- C3 witness: behind two pending items of 2 s and 3 s with nothing
playing, the estimated wait is 5.0 s. -/
theorem speak_estimated_wait_witness :
    (speak wavErr backendOk exState3 { text := "hi" }).2 = .ok exResp3 ∧
    exResp3.estimated_wait_seconds =
      round1 ((exState3.queue.map PlaybackItem.duration).sum +
        exState3.nowPlaying.elim 0 fun np => np.duration * (1 / 2)) := by
  have h : (speak wavErr backendOk exState3 { text := "hi" }).2 = .ok exResp3 := by
    simp [speak, speakRequest, spokenText, backendOk, wavErr, estimateDuration, nextPlaybackId,
      exState3, exItem, exResp3, round1, clampVolume, volumeOrDefault]
    norm_num [round_eq]
  exact ⟨h, speak_estimated_wait wavErr backendOk exState3 { text := "hi" } exResp3 h⟩

/-- C4 counterexample: with the volume argument explicitly supplied as
`0`, the stored volume is `0.15`, not `max 0.01 (min 1.00 0) = 0.01` as
the unconditional clamp formula would demand. -/
theorem speak_volume_zero_clamp_cex :
    (speak wavErr backendOk initState
        { text := "hi", volume := some 0 }).1.queue.map PlaybackItem.volume = [0.15] ∧
    max (0.01 : ℚ) (min 1.00 0) = 0.01 ∧
    (0.15 : ℚ) ≠ 0.01 := by
  refine ⟨?_, by norm_num, by norm_num⟩
  simp [speak, speakRequest, spokenText, backendOk, wavErr, estimateDuration, nextPlaybackId,
    initState, clampVolume, volumeOrDefault]
  norm_num

/-- C4 (amended): the stored volume equals `max 0.01 (min 1.00 v)` when a
nonzero volume `v` is supplied, and `0.15` when the volume is omitted or
supplied as `0`; in particular `5.0` clamps to `1.00` and `-1` clamps to
`0.01`, and every successful `speak` stores exactly `clampVolume` of its
volume argument on the enqueued item. -/
theorem speak_volume_clamped_amended :
    (∀ v : ℚ, v ≠ 0 → clampVolume (some v) = max 0.01 (min 1.00 v)) ∧
    clampVolume none = 0.15 ∧
    clampVolume (some 0) = 0.15 ∧
    clampVolume (some 5.0) = 1.00 ∧
    clampVolume (some (-1)) = 0.01 ∧
    (∀ (w : List Nat → WavParse) (b : SynthRequest → PostResult) (s : ServerState)
        (a : SpeakArgs) (r : SpeakResponse), (speak w b s a).2 = .ok r →
      (speak w b s a).1.queue.map PlaybackItem.volume =
        s.queue.map PlaybackItem.volume ++ [clampVolume a.volume]) := by
  refine ⟨?_, by norm_num [clampVolume, volumeOrDefault],
    by norm_num [clampVolume, volumeOrDefault],
    by norm_num [clampVolume, volumeOrDefault],
    by norm_num [clampVolume, volumeOrDefault], ?_⟩
  · intro v hv
    simp [clampVolume, volumeOrDefault, hv]
  · intro w b s a r h
    unfold speak at h ⊢
    cases hb : b (speakRequest a) with
    | timeout => rw [hb] at h; simp at h
    | connError => rw [hb] at h; simp at h
    | response status content =>
      rw [hb] at h
      by_cases hs : status = 200
      · subst hs
        simp [nextPlaybackId]
      · simp [hs] at h

/-- C4 witness: a supplied volume of `5` is stored as the clamp value
`max 0.01 (min 1.00 5) = 1`. -/
theorem speak_volume_clamped_amended_witness :
    clampVolume (some 5) = max 0.01 (min 1.00 5) ∧
    (speak wavErr backendOk initState
        { text := "hi", volume := some 5 }).1.queue.map PlaybackItem.volume =
      initState.queue.map PlaybackItem.volume ++ [clampVolume (some 5)] := by
  have h : (speak wavErr backendOk initState { text := "hi", volume := some 5 }).2 = .ok exResp1 := by
    simp [speak, speakRequest, spokenText, backendOk, wavErr, estimateDuration, nextPlaybackId,
      initState, exResp1, round1, clampVolume, volumeOrDefault]
  exact ⟨speak_volume_clamped_amended.1 5 (by norm_num),
    speak_volume_clamped_amended.2.2.2.2.2 wavErr backendOk initState
      { text := "hi", volume := some 5 } exResp1 h⟩

/-- C5: on a timeout, a refused connection, or a non-200 status the
`speak` call returns the corresponding error string — the non-200 one
carrying the status code — and leaves the state (in particular the
pending deque) unchanged; the three error strings are pairwise distinct. -/
theorem speak_failure_no_enqueue :
    ∀ (w : List Nat → WavParse) (b : SynthRequest → PostResult) (s : ServerState) (a : SpeakArgs),
      (b (speakRequest a) = .timeout →
        speak w b s a = (s, .error "Error: TTS service request timed out")) ∧
      (b (speakRequest a) = .connError →
        speak w b s a = (s, .error "Error: TTS service not available at localhost:5001")) ∧
      (∀ (status : Nat) (content : List Nat),
        b (speakRequest a) = .response status content → status ≠ 200 →
        speak w b s a = (s, .error ("TTS service error: HTTP " ++ toString status))) ∧
      (∀ status : Nat,
        "TTS service error: HTTP " ++ toString status ≠ "Error: TTS service request timed out" ∧
        "TTS service error: HTTP " ++ toString status ≠
          "Error: TTS service not available at localhost:5001" ∧
        ("Error: TTS service request timed out" : String) ≠
          "Error: TTS service not available at localhost:5001") := by
  intro w b s a
  refine ⟨?_, ?_, ?_, ?_⟩
  · intro hb; unfold speak; rw [hb]
  · intro hb; unfold speak; rw [hb]
  · intro status content hb hs
    unfold speak
    rw [hb]
    simp [hs]
  · intro status
    refine ⟨?_, ?_, by decide⟩
    · intro h
      have h2 := congrArg String.data h
      rw [String.data_append] at h2
      rw [show "TTS service error: HTTP ".data = 'T' :: "TS service error: HTTP ".data from rfl,
        show "Error: TTS service request timed out".data =
          'E' :: "rror: TTS service request timed out".data from rfl] at h2
      simp at h2
    · intro h
      have h2 := congrArg String.data h
      rw [String.data_append] at h2
      rw [show "TTS service error: HTTP ".data = 'T' :: "TS service error: HTTP ".data from rfl,
        show "Error: TTS service not available at localhost:5001".data =
          'E' :: "rror: TTS service not available at localhost:5001".data from rfl] at h2
      simp at h2

/-- C5 witness: the timeout path on the initial state returns the timeout
message and the unchanged state. -/
theorem speak_failure_no_enqueue_witness :
    speak wavErr (fun _ => .timeout) initState { text := "hi" } =
      (initState, .error "Error: TTS service request timed out") :=
  (speak_failure_no_enqueue wavErr (fun _ => .timeout) initState { text := "hi" }).1 rfl

/-- C6 counterexample: when the failed in-memory load forces the
temp-file fallback and the final `os.remove` raises — a failure the
`finally` block swallows with its own `except Exception: pass` — the
temp file survives the iteration, so it is not true that the file is
removed on every per-item exit path; the slot is still cleared and the
worker still proceeds to the next item. -/
theorem worker_temp_file_survives_remove_failure_cex :
    (workerIteration envRemoveFail exStateC6).2.map IterationReport.tempCreated = some true ∧
    (workerIteration envRemoveFail exStateC6).2.map IterationReport.tempFileLeft = some true ∧
    (workerIteration envRemoveFail exStateC6).1.nowPlaying = none ∧
    (workerIteration envRemoveFail exStateC6).1.queue = [] := by
  simp [workerIteration, workerTryBody, envRemoveFail, exStateC6]

/-- C6 (amended): whatever the device and file system do — every
combination of raising calls, stop signalling and remove behaviour — one
worker iteration on a nonempty deque returns normally with the
now-playing slot cleared and the head consumed, and removal of the
temporary fallback file is attempted on every exit path: no file is left
whenever the `os.remove` call itself succeeds, and none is left when no
fallback file was created; a raising remove is swallowed too, never
halting the worker. -/
theorem worker_swallows_errors_and_cleans_up (env : DeviceEnv) (s : ServerState)
    (item : PlaybackItem) (rest : List PlaybackItem) (h : s.queue = item :: rest) :
    (workerIteration env s).1.nowPlaying = none ∧
    (workerIteration env s).1.queue = rest ∧
    (workerIteration env s).2.map IterationReport.item = some item ∧
    (env.removeOk = true →
      (workerIteration env s).2.map IterationReport.tempFileLeft = some false) ∧
    ((workerIteration env s).2.map IterationReport.tempCreated = some false →
      (workerIteration env s).2.map IterationReport.tempFileLeft = some false) := by
  refine ⟨?_, ?_, ?_, ?_, ?_⟩ <;> simp [workerIteration, h]
  · intro hr
    simp [hr]
  · intro hc
    simp [hc]

/-- C6 witness: one iteration on a single-item deque with a device on
which every body call raises but the remove succeeds still clears the
slot, consumes the head, and leaves no file. -/
theorem worker_swallows_errors_and_cleans_up_witness :
    (workerIteration envAllFail exStateC6).1.nowPlaying = none ∧
    (workerIteration envAllFail exStateC6).1.queue = [] ∧
    (workerIteration envAllFail exStateC6).2.map IterationReport.item = some (exItem 1 2) ∧
    (envAllFail.removeOk = true →
      (workerIteration envAllFail exStateC6).2.map IterationReport.tempFileLeft = some false) ∧
    ((workerIteration envAllFail exStateC6).2.map IterationReport.tempCreated = some false →
      (workerIteration envAllFail exStateC6).2.map IterationReport.tempFileLeft = some false) :=
  worker_swallows_errors_and_cleans_up envAllFail exStateC6 (exItem 1 2) [] rfl

/-- C7: with a non-empty source the backend receives the caller's text
prefixed by the source label, while the enqueued item, the response and
hence the status all keep the original text; with the source absent or
empty the backend receives the text unchanged and the stored source is
the empty string. -/
theorem speak_source_spoken_vs_stored :
    (∀ (a : SpeakArgs) (src : String), a.source = some src → src ≠ "" →
      (speakRequest a).text = "From " ++ src ++ ": " ++ a.text) ∧
    (∀ a : SpeakArgs, a.source = none ∨ a.source = some "" →
      (speakRequest a).text = a.text) ∧
    (∀ (w : List Nat → WavParse) (b : SynthRequest → PostResult) (s : ServerState)
        (a : SpeakArgs) (r : SpeakResponse), (speak w b s a).2 = .ok r →
      r.text = a.text ∧
      (speak w b s a).1.queue.map PlaybackItem.text = s.queue.map PlaybackItem.text ++ [a.text] ∧
      (speak w b s a).1.queue.map PlaybackItem.source =
        s.queue.map PlaybackItem.source ++ [a.source.getD ""]) := by
  refine ⟨?_, ?_, ?_⟩
  · intro a src hsrc hne
    simp [speakRequest, spokenText, hsrc, hne]
  · rintro a (hsrc | hsrc) <;> simp [speakRequest, spokenText, hsrc]
  · intro w b s a r h
    unfold speak at h ⊢
    cases hb : b (speakRequest a) with
    | timeout => rw [hb] at h; simp at h
    | connError => rw [hb] at h; simp at h
    | response status content =>
      rw [hb] at h
      by_cases hs : status = 200
      · subst hs
        simp at h
        refine ⟨by rw [← h], ?_, ?_⟩ <;> simp [nextPlaybackId]
      · simp [hs] at h

/-- C7 witness: with source `svc-a` the backend receives the prefixed
text, and with the source omitted the text goes through unchanged. -/
theorem speak_source_spoken_vs_stored_witness :
    (speakRequest { text := "hi", source := some "svc-a" }).text = "From " ++ "svc-a" ++ ": " ++ "hi" ∧
    (speakRequest { text := "hi" }).text = "hi" :=
  ⟨speak_source_spoken_vs_stored.1 { text := "hi", source := some "svc-a" } "svc-a" rfl (by decide),
   speak_source_spoken_vs_stored.2.1 { text := "hi" } (Or.inl rfl)⟩

/-- C8: the duration estimator returns `frames / rate` when the buffer
parses with a nonzero frame rate, and `0` — without propagating any
exception — when the parse fails or the frame rate is zero. -/
theorem estimateDuration_total_spec :
    ∀ (wavParse : List Nat → WavParse) (audio : List Nat),
      (∀ n r : Nat, wavParse audio = .ok n r → r ≠ 0 →
        estimateDuration wavParse audio = (n : ℚ) / (r : ℚ)) ∧
      (∀ n : Nat, wavParse audio = .ok n 0 → estimateDuration wavParse audio = 0) ∧
      (wavParse audio = .err → estimateDuration wavParse audio = 0) := by
  intro wp audio
  refine ⟨?_, ?_, ?_⟩
  · intro n r hp hr
    simp [estimateDuration, hp, hr]
  · intro n hp
    simp [estimateDuration, hp]
  · intro hp
    simp [estimateDuration, hp]

/-- C8 witness: 44100 frames at 22050 Hz estimate to 44100 / 22050 s,
while a zero rate and a failed parse estimate to 0. -/
theorem estimateDuration_total_spec_witness :
    estimateDuration (fun _ => .ok 44100 22050) [] = (44100 : ℚ) / (22050 : ℚ) ∧
    estimateDuration (fun _ => .ok 7 0) [] = 0 ∧
    estimateDuration wavErr [] = 0 :=
  ⟨(estimateDuration_total_spec (fun _ => .ok 44100 22050) []).1 44100 22050 rfl (by decide),
   (estimateDuration_total_spec (fun _ => .ok 7 0) []).2.1 7 rfl,
   (estimateDuration_total_spec wavErr []).2.2 rfl⟩

/-- C9: a volume supplied explicitly as `0` is falsy for `volume or 0.15`
and therefore stored as the default `0.15`, not as the clamp lower bound. -/
theorem speak_volume_zero_is_default (w : List Nat → WavParse) (b : SynthRequest → PostResult)
    (s : ServerState) (a : SpeakArgs) (r : SpeakResponse)
    (hv : a.volume = some 0) (h : (speak w b s a).2 = .ok r) :
    (speak w b s a).1.queue.map PlaybackItem.volume =
      s.queue.map PlaybackItem.volume ++ [0.15] := by
  unfold speak at h ⊢
  cases hb : b (speakRequest a) with
  | timeout => rw [hb] at h; simp at h
  | connError => rw [hb] at h; simp at h
  | response status content =>
    rw [hb] at h
    by_cases hs : status = 200
    · subst hs
      simp [nextPlaybackId, clampVolume, volumeOrDefault, hv]
      norm_num
    · simp [hs] at h

/-- C9 witness: a concrete `speak` call with volume `0` stores `0.15`. -/
theorem speak_volume_zero_is_default_witness :
    (speak wavErr backendOk initState
        { text := "hi", volume := some 0 }).1.queue.map PlaybackItem.volume =
      initState.queue.map PlaybackItem.volume ++ [0.15] := by
  have h : (speak wavErr backendOk initState { text := "hi", volume := some 0 }).2 = .ok exResp1 := by
    simp [speak, speakRequest, spokenText, backendOk, wavErr, estimateDuration, nextPlaybackId,
      initState, exResp1, round1, clampVolume, volumeOrDefault]
  exact speak_volume_zero_is_default wavErr backendOk initState
    { text := "hi", volume := some 0 } exResp1 rfl h

/-- C10: a failed `speak` call leaves the whole state — including the id
counter — untouched, so the ids of successful submissions are exactly the
consecutive integers 1, 2, 3, … in assignment order along every trace. -/
theorem speak_failed_call_keeps_counter :
    (∀ (w : List Nat → WavParse) (b : SynthRequest → PostResult) (s : ServerState)
        (a : SpeakArgs) (msg : String),
      (speak w b s a).2 = .error msg → (speak w b s a).1 = s) ∧
    (∀ es : List Event,
      assignedIds initState es = List.range' 1 (assignedIds initState es).length) := by
  constructor
  · intro w b s a msg h
    exact speak_error_state w b s a msg h
  · intro es
    obtain ⟨k, hk⟩ := assignedIds_range' es initState
    rw [hk, List.length_range']
    simp [initState]

/-- C10 witness: a refused connection leaves the initial state unchanged. -/
theorem speak_failed_call_keeps_counter_witness :
    (speak wavErr backendDown initState { text := "hi" }).1 = initState :=
  speak_failed_call_keeps_counter.1 wavErr backendDown initState { text := "hi" }
    "Error: TTS service not available at localhost:5001" rfl

end PiperTts
